import Mathlib

/-!
Verification of the OWON AG051 SCPI controller (src/main.py).

The Python class `OwonAG051` drives a USB function generator: it discovers the
device by vendor/product id, configures it, and then exchanges textual SCPI
commands over a bulk OUT endpoint (0x03) and a bulk IN endpoint (0x81).

The embedding models each method as a computation in a state monad `M` over an
ambient transport `Behavior` (which devices are attached, and the outcome of
the n-th bulk write and the n-th bulk read).  Every USB interaction, sleep and
print is logged in a trace, so the theorems can speak about which bytes were
transmitted, in which order, and which operations were attempted.
-/

/-- Bytes are modelled as natural numbers below 256 where relevant. -/
abbrev Byte := Nat

/-- Outcome of one pyusb bulk OUT transfer (`self.dev.write`). -/
inductive WriteOutcome where
  | ok
  | ioError
deriving DecidableEq, Repr

/-- Outcome of one pyusb bulk IN transfer (`self.dev.read`): data arrived, the
timeout expired with no data, or some other transport fault occurred. -/
inductive ReadOutcome where
  | ok (data : List Byte)
  | timeout
  | ioError
deriving DecidableEq, Repr

/-- Python exceptions that the source can raise.  `valueError` models the
`ValueError` raised by `__init__` when no device is found; `timeoutError`
models `usb.core.USBTimeoutError`; `ioError` models any other
`usb.core.USBError` (a subclass of Python `IOError`/`OSError`) raised by a
bulk transfer. -/
inductive PyError where
  | valueError (msg : String)
  | timeoutError
  | ioError
deriving DecidableEq, Repr

/-- The `ValueError` raised by `OwonAG051.__init__` when `usb.core.find`
returns `None` (src/main.py lines 20-23).  The spec calls this condition
`DeviceNotFoundError`. -/
def DeviceNotFoundError : PyError :=
  .valueError "OWON AG051 not found. Check USB connection and driver (WinUSB)."

/-- One observable step of the controller: a device lookup, the one-time
configuration, a bulk write attempt (with the payload and whether the bytes
were transmitted), a bulk read attempt, a `time.sleep`, or a `print`. -/
inductive Event where
  | findDevice (vendorId productId : Nat) (found : Bool)
  | setConfiguration
  | writeAttempt (endpoint : Nat) (payload : List Byte) (success : Bool)
  | readAttempt (endpoint maxLen timeoutMs : Nat)
  | sleep (ms : Nat)
  | printed (line : String)
deriving DecidableEq, Repr

/-- Ambient model of the USB world: the attached devices (vendor id, product
id pairs) and the outcome of the n-th write and the n-th read (0-based). -/
structure Behavior where
  bus : List (Nat × Nat)
  onWrite : Nat → WriteOutcome
  onRead : Nat → ReadOutcome

/-- Mutable state threaded through a run: how many writes and reads have been
issued so far, and the trace of events in program order. -/
structure St where
  writes : Nat
  reads : Nat
  trace : List Event
deriving DecidableEq, Repr

/-- The state at the start of a run: nothing has happened yet. -/
def St.initial : St := ⟨0, 0, []⟩

/-- A computation of the embedded Python code: reads the ambient behavior,
threads the state, and either returns a value or raises a `PyError`.  The
state (in particular the trace) is preserved when an error is raised, so the
theorems can inspect what happened before a fault. -/
def M (α : Type) : Type := Behavior → St → Except PyError α × St

/-- Return a value without touching the state. -/
def M.pure {α : Type} (a : α) : M α := fun _ s => (.ok a, s)

/-- Sequencing: run `m`; on success continue with `f`, on an exception
propagate it unchanged (Python exception semantics). -/
def M.bind {α β : Type} (m : M α) (f : α → M β) : M β := fun b s =>
  match m b s with
  | (.ok a, s1) => f a b s1
  | (.error e, s1) => (.error e, s1)

/-- Raise a Python exception. -/
def M.raise {α : Type} (e : PyError) : M α := fun _ s => (.error e, s)

/-- Append one event to the trace. -/
def logEvent (e : Event) : M Unit :=
  fun _ s => (.ok (), { s with trace := s.trace ++ [e] })

/-- Model of `self.dev.write(endpoint, payload)`: a blocking bulk OUT
transfer.  The attempt is logged; on success the payload was transmitted, on
a transport fault `usb.core.USBError` (an `IOError`) is raised. -/
def devWrite (endpoint : Nat) (payload : List Byte) : M Unit := fun b s =>
  match b.onWrite s.writes with
  | .ok =>
      (.ok (), { s with writes := s.writes + 1,
                        trace := s.trace ++ [.writeAttempt endpoint payload true] })
  | .ioError =>
      (.error .ioError,
       { s with writes := s.writes + 1,
                trace := s.trace ++ [.writeAttempt endpoint payload false] })

/-- Model of `self.dev.read(endpoint, maxLen, timeoutMs)`: a blocking bulk IN
transfer bounded by `timeoutMs`.  At most `maxLen` bytes are returned; on
timeout `usb.core.USBTimeoutError` is raised, on any other fault
`usb.core.USBError`. -/
def devRead (endpoint maxLen timeoutMs : Nat) : M (List Byte) := fun b s =>
  let s1 : St := { s with reads := s.reads + 1,
                          trace := s.trace ++ [.readAttempt endpoint maxLen timeoutMs] }
  match b.onRead s.reads with
  | .ok data => (.ok (data.take maxLen), s1)
  | .timeout => (.error .timeoutError, s1)
  | .ioError => (.error .ioError, s1)

/-- Model of `time.sleep(sec)`, logged with the duration in milliseconds. -/
def pySleep (ms : Nat) : M Unit := logEvent (.sleep ms)

/-- Model of `usb.core.find(idVendor=v, idProduct=p)`: scans the bus for a
matching device and reports whether one exists (`None` in Python when not). -/
def usbCoreFind (vendorId productId : Nat) : M Bool := fun b s =>
  let found := b.bus.any fun d => d.1 == vendorId && d.2 == productId
  (.ok found, { s with trace := s.trace ++ [.findDevice vendorId productId found] })

/-- Model of `self.dev.set_configuration()`. -/
def setConfiguration : M Unit := logEvent .setConfiguration

/-- Model of Python `print`. -/
def pyPrint (line : String) : M Unit := logEvent (.printed line)

/-- Model of `try: ... except usb.core.USBTimeoutError: handler`: only a
timeout is caught; every other exception propagates unchanged. -/
def catchTimeout {α : Type} (m : M α) (handler : M α) : M α := fun b s =>
  match m b s with
  | (.error .timeoutError, s1) => handler b s1
  | r => r

/-- UTF-8 encoding of one character (pyusb encodes `str` payloads as UTF-8
before the bulk transfer). -/
def encodeChar (c : Char) : List Byte :=
  let n := c.toNat
  if n < 0x80 then [n]
  else if n < 0x800 then
    [0xC0 + n / 64, 0x80 + n % 64]
  else if n < 0x10000 then
    [0xE0 + n / 4096, 0x80 + n / 64 % 64, 0x80 + n % 64]
  else
    [0xF0 + n / 0x40000, 0x80 + n / 4096 % 64, 0x80 + n / 64 % 64, 0x80 + n % 64]

/-- UTF-8 encoding of a character list. -/
def encodeChars : List Char → List Byte
  | [] => []
  | c :: cs => encodeChar c ++ encodeChars cs

/-- UTF-8 encoding of a string, as pyusb applies to a `str` payload. -/
def pyEncode (s : String) : List Byte := encodeChars s.data

/-- Whether a byte is a UTF-8 continuation byte (`0x80..0xBF`). -/
def isCont (b : Byte) : Bool := 0x80 ≤ b && b < 0xC0

/-- UTF-8 decoding of a byte list with invalid sequences silently dropped,
modelling Python `bytes.decode("utf-8", errors="ignore")`: each maximal valid
sequence yields its character; a byte that starts no valid sequence is
skipped and decoding resynchronises at the next byte (no replacement
character, no exception).  Overlong encodings, surrogate code points and code
points above 0x10FFFF are rejected as in CPython. -/
def decodeBytesFuel : Nat → List Byte → List Char
  | 0, _ => []
  | _ + 1, [] => []
  | fuel + 1, b0 :: rest =>
    if b0 < 0x80 then
      Char.ofNat b0 :: decodeBytesFuel fuel rest
    else if b0 < 0xC2 then
      decodeBytesFuel fuel rest
    else if b0 < 0xE0 then
      match rest with
      | b1 :: rest1 =>
        if isCont b1 then
          Char.ofNat ((b0 - 0xC0) * 64 + (b1 - 0x80)) :: decodeBytesFuel fuel rest1
        else decodeBytesFuel fuel (b1 :: rest1)
      | [] => []
    else if b0 < 0xF0 then
      match rest with
      | b1 :: b2 :: rest2 =>
        if isCont b1 && isCont b2 then
          let cp := (b0 - 0xE0) * 4096 + (b1 - 0x80) * 64 + (b2 - 0x80)
          if 0x800 ≤ cp && (cp < 0xD800 || 0xE000 ≤ cp) then
            Char.ofNat cp :: decodeBytesFuel fuel rest2
          else decodeBytesFuel fuel (b1 :: b2 :: rest2)
        else decodeBytesFuel fuel (b1 :: b2 :: rest2)
      | other => decodeBytesFuel fuel other
    else if b0 < 0xF5 then
      match rest with
      | b1 :: b2 :: b3 :: rest3 =>
        if isCont b1 && isCont b2 && isCont b3 then
          let cp := (b0 - 0xF0) * 0x40000 + (b1 - 0x80) * 4096
                      + (b2 - 0x80) * 64 + (b3 - 0x80)
          if 0x10000 ≤ cp && cp ≤ 0x10FFFF then
            Char.ofNat cp :: decodeBytesFuel fuel rest3
          else decodeBytesFuel fuel (b1 :: b2 :: b3 :: rest3)
        else decodeBytesFuel fuel (b1 :: b2 :: b3 :: rest3)
      | other => decodeBytesFuel fuel other
    else decodeBytesFuel fuel rest

/-- UTF-8 decoding of a byte list with invalid bytes dropped.  Every step of
`decodeBytesFuel` consumes at least one byte, so `bs.length` units of fuel
always suffice and the fuel never runs out. -/
def decodeBytes (bs : List Byte) : List Char := decodeBytesFuel bs.length bs

/-- Model of `bytes.decode("utf-8", errors="ignore")` producing a string. -/
def decodeUtf8Ignore (bs : List Byte) : String := ⟨decodeBytes bs⟩

/-- Whether Python `str.strip()` treats a character as whitespace (ASCII
whitespace, the C1 separators, NEL, NBSP and the Unicode space separators). -/
def isPySpace (c : Char) : Bool :=
  let n := c.toNat
  (0x09 ≤ n && n ≤ 0x0D) || n == 0x20 || (0x1C ≤ n && n ≤ 0x1F) ||
  n == 0x85 || n == 0xA0 || n == 0x1680 ||
  (0x2000 ≤ n && n ≤ 0x200A) || n == 0x2028 || n == 0x2029 ||
  n == 0x202F || n == 0x205F || n == 0x3000

/-- Model of Python `str.strip()`: drop whitespace from both ends. -/
def pyStrip (s : String) : String :=
  ⟨((s.data.dropWhile isPySpace).reverse.dropWhile isPySpace).reverse⟩

/-- The controller object: the attributes `__init__` stores (the open device
handle itself lives in the ambient `Behavior`). -/
structure OwonAG051 where
  vendor_id : Nat
  product_id : Nat
  timeout : Nat
deriving DecidableEq, Repr

/-- Bulk OUT endpoint address (src/main.py line 11). -/
def OwonAG051.OUT_ENDPOINT : Nat := 0x03

/-- Bulk IN endpoint address (src/main.py line 12). -/
def OwonAG051.IN_ENDPOINT : Nat := 0x81

/-- The settle delay after an ordinary send: `time.sleep(0.05)` on line 35,
i.e. 50 milliseconds. -/
def sendSettleDelayMs : Nat := 50

/-- The settle delay `reset` adds after sending `*RST`: `time.sleep(0.5)` on
line 53, i.e. 500 milliseconds. -/
def resetSettleDelayMs : Nat := 500

/-- Model of `OwonAG051.send` (lines 30-35): append a carriage return to the
command, write the bytes on the bulk OUT endpoint, then sleep 50 ms. -/
def OwonAG051.send (_self : OwonAG051) (cmd : String) : M Unit :=
  M.bind (devWrite OwonAG051.OUT_ENDPOINT (pyEncode (cmd ++ "\r"))) fun _ =>
  pySleep sendSettleDelayMs

/-- Model of `OwonAG051.query` (lines 37-46): write the terminated command,
then try one read of up to 4096 bytes with the configured timeout; decode the
response as UTF-8 ignoring invalid bytes and strip it; a timeout is converted
into the empty string. -/
def OwonAG051.query (self : OwonAG051) (cmd : String) : M String :=
  M.bind (devWrite OwonAG051.OUT_ENDPOINT (pyEncode (cmd ++ "\r"))) fun _ =>
  catchTimeout
    (M.bind (devRead OwonAG051.IN_ENDPOINT 4096 self.timeout) fun data =>
      M.pure (pyStrip (decodeUtf8Ignore data)))
    (M.pure "")

/-- Model of `OwonAG051.__init__` (lines 14-26): store the ids and timeout,
look the device up on the bus, raise `ValueError` when absent, otherwise
apply the default configuration and print the identity query. -/
def OwonAG051.init (vendor_id product_id timeoutMs : Nat) : M OwonAG051 :=
  let self : OwonAG051 := ⟨vendor_id, product_id, timeoutMs⟩
  M.bind (usbCoreFind vendor_id product_id) fun found =>
  if found then
    M.bind setConfiguration fun _ =>
    M.bind (self.query "*IDN?") fun idn =>
    M.bind (pyPrint ("Connected: " ++ idn)) fun _ =>
    M.pure self
  else
    M.raise DeviceNotFoundError

/-- Model of `OwonAG051.reset` (lines 50-53): send `*RST`, then sleep a
further 500 ms. -/
def OwonAG051.reset (self : OwonAG051) : M Unit :=
  M.bind (self.send "*RST") fun _ =>
  pySleep resetSettleDelayMs

/-- Model of `OwonAG051.set_function` (lines 55-57).  The shape is a string
in the source as well. -/
def OwonAG051.set_function (self : OwonAG051) (shape : String) : M Unit :=
  self.send (":FUNCtion " ++ shape)

/-- Model of `OwonAG051.set_frequency` (lines 59-61).  The Python method
interpolates the float `freq_hz` into an f-string; floating-point formatting
is outside the embedding, so the model takes the decimal text that Python
`str` produces for the number and performs the same interpolation. -/
def OwonAG051.set_frequency (self : OwonAG051) (freq_hz : String) : M Unit :=
  self.send (":FUNCtion:FREQuency " ++ freq_hz)

/-- Model of `OwonAG051.set_amplitude` (lines 63-65); the amplitude parameter
is its decimal text, as in `set_frequency`. -/
def OwonAG051.set_amplitude (self : OwonAG051) (amplitude_vpp : String) : M Unit :=
  self.send (":FUNCtion:AMPLitude " ++ amplitude_vpp)

/-- Model of `OwonAG051.set_offset` (lines 67-69); the offset parameter is
its decimal text, as in `set_frequency`. -/
def OwonAG051.set_offset (self : OwonAG051) (offset_v : String) : M Unit :=
  self.send (":FUNCtion:OFFSet " ++ offset_v)

/-- Model of `OwonAG051.output_on` (lines 71-73). -/
def OwonAG051.output_on (self : OwonAG051) : M Unit :=
  self.send ":CHANnel ON"

/-- Model of `OwonAG051.output_off` (lines 75-77). -/
def OwonAG051.output_off (self : OwonAG051) : M Unit :=
  self.send ":CHANnel OFF"

/-- Model of `OwonAG051.configure_waveform` (lines 81-88): the four setters
in the fixed order function, frequency, amplitude, offset. -/
def OwonAG051.configure_waveform (self : OwonAG051)
    (shape freq ampl offset : String) : M Unit :=
  M.bind (self.set_function shape) fun _ =>
  M.bind (self.set_frequency freq) fun _ =>
  M.bind (self.set_amplitude ampl) fun _ =>
  self.set_offset offset

/-- Model of `OwonAG051.info` (lines 90-92). -/
def OwonAG051.info (self : OwonAG051) : M Unit :=
  M.bind (self.query "*IDN?") fun r =>
  pyPrint r

/-- Whether an event is a bulk write attempt. -/
def Event.isWriteAttempt : Event → Bool
  | .writeAttempt _ _ _ => true
  | _ => false

/-- Whether an event is a bulk read attempt. -/
def Event.isReadAttempt : Event → Bool
  | .readAttempt _ _ _ => true
  | _ => false

/-- Number of bulk write attempts in a trace. -/
def countWrites (tr : List Event) : Nat := tr.countP Event.isWriteAttempt

/-- Number of bulk read attempts in a trace. -/
def countReads (tr : List Event) : Nat := tr.countP Event.isReadAttempt

/-- UTF-8 encoding distributes over list concatenation. -/
theorem encodeChars_append (xs ys : List Char) :
    encodeChars (xs ++ ys) = encodeChars xs ++ encodeChars ys := by
  induction xs with
  | nil => rfl
  | cons c cs ih => simp [encodeChars, ih]

/-- UTF-8 encoding distributes over string concatenation. -/
theorem pyEncode_append (s t : String) :
    pyEncode (s ++ t) = pyEncode s ++ pyEncode t := by
  simp [pyEncode, String.data_append, encodeChars_append]

/-- Appending the carriage-return terminator to a command appends exactly the
single byte 0x0D to its encoding. -/
theorem pyEncode_cr (s : String) :
    pyEncode (s ++ "\r") = pyEncode s ++ [0x0D] := by
  rw [pyEncode_append]; rfl

/-- A transport with the AG051 attached where every write succeeds and every
read returns `data`. -/
def allOkBehavior (data : List Byte) : Behavior :=
  ⟨[(0x5345, 0x1234)], fun _ => .ok, fun _ => .ok data⟩

/-- A transport with the AG051 attached where writes succeed and every read
times out. -/
def timeoutBehavior : Behavior :=
  ⟨[(0x5345, 0x1234)], fun _ => .ok, fun _ => .timeout⟩

/-- A transport with the AG051 attached where writes succeed and every read
fails with a non-timeout transport fault. -/
def readFaultBehavior : Behavior :=
  ⟨[(0x5345, 0x1234)], fun _ => .ok, fun _ => .ioError⟩

/-- A transport with the AG051 attached where exactly the write with index
`failAt` fails and reads time out. -/
def writeFaultBehavior (failAt : Nat) : Behavior :=
  ⟨[(0x5345, 0x1234)], fun n => if n == failAt then .ioError else .ok,
   fun _ => .timeout⟩

/-- A transport with no device attached at all. -/
def emptyBusBehavior : Behavior :=
  ⟨[], fun _ => .ok, fun _ => .timeout⟩

/-- A controller with the default vendor id, product id and timeout of the
source (`0x5345`, `0x1234`, 1000 ms). -/
def sampleDevice : OwonAG051 := ⟨0x5345, 0x1234, 1000⟩

/-- The identity response bytes used by the spec example. -/
def idnBytes : List Byte := pyEncode "OWON,AG051,12345,1.0\r\n"

/-- A 5000-byte device response, longer than one read can return. -/
def longData : List Byte := List.replicate 5000 0x41

/-- A transport that answers every read with the 5000-byte response. -/
def longBehavior : Behavior := allOkBehavior longData

/-- C1: for every command, a query whose single read attempt times out
returns the empty string as a normal result, while a non-timeout read fault
and a write fault propagate unchanged as `ioError`. -/
theorem C1_query_timeout_empty_faults_propagate (self : OwonAG051) (cmd : String)
    (b : Behavior) (s : St) :
    (b.onWrite s.writes = .ok → b.onRead s.reads = .timeout →
      (self.query cmd b s).1 = .ok "") ∧
    (b.onWrite s.writes = .ok → b.onRead s.reads = .ioError →
      (self.query cmd b s).1 = .error .ioError) ∧
    (b.onWrite s.writes = .ioError →
      (self.query cmd b s).1 = .error .ioError) := by
  refine ⟨fun hw hr => ?_, fun hw hr => ?_, fun hw => ?_⟩
  · simp [OwonAG051.query, M.bind, M.pure, devWrite, devRead, catchTimeout, hw, hr]
  · simp [OwonAG051.query, M.bind, M.pure, devWrite, devRead, catchTimeout, hw, hr]
  · simp [OwonAG051.query, M.bind, M.pure, devWrite, devRead, catchTimeout, hw]

/-- C1 witness: concrete runs for the timeout, read-fault and write-fault
cases. -/
theorem C1_witness :
    timeoutBehavior.onWrite St.initial.writes = .ok ∧
    timeoutBehavior.onRead St.initial.reads = .timeout ∧
    readFaultBehavior.onRead St.initial.reads = .ioError ∧
    (writeFaultBehavior 0).onWrite St.initial.writes = .ioError ∧
    (sampleDevice.query "*IDN?" timeoutBehavior St.initial).1 = .ok "" ∧
    (sampleDevice.query "*IDN?" readFaultBehavior St.initial).1 = .error .ioError ∧
    (sampleDevice.query "*IDN?" (writeFaultBehavior 0) St.initial).1 = .error .ioError :=
  ⟨rfl, rfl, rfl, rfl,
   (C1_query_timeout_empty_faults_propagate sampleDevice "*IDN?" timeoutBehavior St.initial).1
     rfl rfl,
   (C1_query_timeout_empty_faults_propagate sampleDevice "*IDN?" readFaultBehavior St.initial).2.1
     rfl rfl,
   (C1_query_timeout_empty_faults_propagate sampleDevice "*IDN?" (writeFaultBehavior 0)
     St.initial).2.2 rfl⟩

/-- C2: a successful send transmits exactly the UTF-8 bytes of the command
followed by exactly one carriage return, for every command string (whether or
not it already ends in a carriage return); in particular the payload for
`*RST` is the byte string 2A 52 53 54 0D. -/
theorem C2_send_appends_one_cr (self : OwonAG051) (cmd : String) (b : Behavior)
    (s : St) (hw : b.onWrite s.writes = .ok) :
    (self.send cmd b s).1 = .ok () ∧
    (self.send cmd b s).2.trace =
      s.trace ++ [.writeAttempt OwonAG051.OUT_ENDPOINT (pyEncode cmd ++ [0x0D]) true,
                  .sleep sendSettleDelayMs] ∧
    pyEncode "*RST" ++ [0x0D] = [0x2A, 0x52, 0x53, 0x54, 0x0D] := by
  refine ⟨?_, ?_, by decide⟩ <;>
    simp [OwonAG051.send, M.bind, devWrite, pySleep, logEvent, pyEncode_cr, hw]

/-- C2 witness: a concrete successful send of `*RST`. -/
theorem C2_witness :
    timeoutBehavior.onWrite St.initial.writes = .ok ∧
    ((sampleDevice.send "*RST" timeoutBehavior St.initial).1 = .ok () ∧
     (sampleDevice.send "*RST" timeoutBehavior St.initial).2.trace =
       St.initial.trace ++
         [.writeAttempt OwonAG051.OUT_ENDPOINT (pyEncode "*RST" ++ [0x0D]) true,
          .sleep sendSettleDelayMs] ∧
     pyEncode "*RST" ++ [0x0D] = [0x2A, 0x52, 0x53, 0x54, 0x0D]) :=
  ⟨rfl, C2_send_appends_one_cr sampleDevice "*RST" timeoutBehavior St.initial rfl⟩

/-- C3: construction with a vendor/product pair that matches no attached
device raises the device-not-found `ValueError` and performs no USB operation
beyond the bus lookup itself: the trace gains only the `findDevice` event, so
no configuration, write or read happens before the error. -/
theorem C3_construction_no_device (v p t : Nat) (b : Behavior) (s : St)
    (h : (b.bus.any fun d => d.1 == v && d.2 == p) = false) :
    (OwonAG051.init v p t b s).1 = .error DeviceNotFoundError ∧
    (OwonAG051.init v p t b s).2.trace = s.trace ++ [.findDevice v p false] := by
  constructor <;> simp [OwonAG051.init, M.bind, M.raise, usbCoreFind, h]

/-- C3 witness: construction against an empty bus. -/
theorem C3_witness :
    (emptyBusBehavior.bus.any fun d => d.1 == 0x5345 && d.2 == 0x1234) = false ∧
    ((OwonAG051.init 0x5345 0x1234 1000 emptyBusBehavior St.initial).1 =
       .error DeviceNotFoundError ∧
     (OwonAG051.init 0x5345 0x1234 1000 emptyBusBehavior St.initial).2.trace =
       St.initial.trace ++ [.findDevice 0x5345 0x1234 false]) :=
  ⟨rfl, C3_construction_no_device 0x5345 0x1234 1000 emptyBusBehavior St.initial rfl⟩

/-- C4: when its four writes succeed, `configure_waveform` issues exactly four
sends, in the fixed order function, frequency, amplitude, offset, each one a
terminated command built from the templates of the source; the frequency
parameter is interpolated as plain decimal text, for example the text
`1000.0` yields the command `:FUNCtion:FREQuency 1000.0`. -/
theorem C4_configure_waveform_four_sends (self : OwonAG051)
    (shape freq ampl offset : String) (b : Behavior) (s : St)
    (h0 : b.onWrite s.writes = .ok) (h1 : b.onWrite (s.writes + 1) = .ok)
    (h2 : b.onWrite (s.writes + 2) = .ok) (h3 : b.onWrite (s.writes + 3) = .ok) :
    (self.configure_waveform shape freq ampl offset b s).1 = .ok () ∧
    (self.configure_waveform shape freq ampl offset b s).2.trace =
      s.trace ++
        [.writeAttempt OwonAG051.OUT_ENDPOINT
           (pyEncode (":FUNCtion " ++ shape) ++ [0x0D]) true,
         .sleep sendSettleDelayMs,
         .writeAttempt OwonAG051.OUT_ENDPOINT
           (pyEncode (":FUNCtion:FREQuency " ++ freq) ++ [0x0D]) true,
         .sleep sendSettleDelayMs,
         .writeAttempt OwonAG051.OUT_ENDPOINT
           (pyEncode (":FUNCtion:AMPLitude " ++ ampl) ++ [0x0D]) true,
         .sleep sendSettleDelayMs,
         .writeAttempt OwonAG051.OUT_ENDPOINT
           (pyEncode (":FUNCtion:OFFSet " ++ offset) ++ [0x0D]) true,
         .sleep sendSettleDelayMs] ∧
    ":FUNCtion:FREQuency " ++ "1000.0" = ":FUNCtion:FREQuency 1000.0" := by
  refine ⟨?_, ?_, by decide⟩ <;>
    simp [OwonAG051.configure_waveform, OwonAG051.set_function,
          OwonAG051.set_frequency, OwonAG051.set_amplitude, OwonAG051.set_offset,
          OwonAG051.send, M.bind, devWrite, pySleep, logEvent, pyEncode_cr,
          h0, h1, h2, h3]

/-- C4 witness: a concrete configure call with all writes succeeding. -/
theorem C4_witness :
    timeoutBehavior.onWrite St.initial.writes = .ok ∧
    timeoutBehavior.onWrite (St.initial.writes + 1) = .ok ∧
    timeoutBehavior.onWrite (St.initial.writes + 2) = .ok ∧
    timeoutBehavior.onWrite (St.initial.writes + 3) = .ok ∧
    ((sampleDevice.configure_waveform "SINE" "1000.0" "2.0" "0.0" timeoutBehavior
        St.initial).1 = .ok () ∧
     (sampleDevice.configure_waveform "SINE" "1000.0" "2.0" "0.0" timeoutBehavior
        St.initial).2.trace =
       St.initial.trace ++
         [.writeAttempt OwonAG051.OUT_ENDPOINT
            (pyEncode (":FUNCtion " ++ "SINE") ++ [0x0D]) true,
          .sleep sendSettleDelayMs,
          .writeAttempt OwonAG051.OUT_ENDPOINT
            (pyEncode (":FUNCtion:FREQuency " ++ "1000.0") ++ [0x0D]) true,
          .sleep sendSettleDelayMs,
          .writeAttempt OwonAG051.OUT_ENDPOINT
            (pyEncode (":FUNCtion:AMPLitude " ++ "2.0") ++ [0x0D]) true,
          .sleep sendSettleDelayMs,
          .writeAttempt OwonAG051.OUT_ENDPOINT
            (pyEncode (":FUNCtion:OFFSet " ++ "0.0") ++ [0x0D]) true,
          .sleep sendSettleDelayMs] ∧
     ":FUNCtion:FREQuency " ++ "1000.0" = ":FUNCtion:FREQuency 1000.0") :=
  ⟨rfl, rfl, rfl, rfl,
   C4_configure_waveform_four_sends sampleDevice "SINE" "1000.0" "2.0" "0.0"
     timeoutBehavior St.initial rfl rfl rfl rfl⟩

/-- C5: for every byte sequence a successful read returns, the query result is
that sequence decoded as UTF-8 with invalid bytes silently dropped and then
stripped of surrounding whitespace; in particular the raw bytes of
`OWON,AG051,12345,1.0` followed by CR LF yield exactly the trimmed string. -/
theorem C5_query_decodes_and_strips (self : OwonAG051) (cmd : String)
    (data : List Byte) (b : Behavior) (s : St)
    (hw : b.onWrite s.writes = .ok) (hr : b.onRead s.reads = .ok data) :
    (self.query cmd b s).1 = .ok (pyStrip (decodeUtf8Ignore (data.take 4096))) ∧
    pyStrip (decodeUtf8Ignore idnBytes) = "OWON,AG051,12345,1.0" := by
  refine ⟨?_, by decide⟩
  simp [OwonAG051.query, M.bind, M.pure, devWrite, devRead, catchTimeout, hw, hr]

/-- C5 witness: a concrete query receiving the identity response bytes. -/
theorem C5_witness :
    (allOkBehavior idnBytes).onWrite St.initial.writes = .ok ∧
    (allOkBehavior idnBytes).onRead St.initial.reads = .ok idnBytes ∧
    ((sampleDevice.query "*IDN?" (allOkBehavior idnBytes) St.initial).1 =
       .ok (pyStrip (decodeUtf8Ignore (idnBytes.take 4096))) ∧
     pyStrip (decodeUtf8Ignore idnBytes) = "OWON,AG051,12345,1.0") :=
  ⟨rfl, rfl,
   C5_query_decodes_and_strips sampleDevice "*IDN?" idnBytes (allOkBehavior idnBytes)
     St.initial rfl rfl⟩

/-- C6: for every command and every transport outcome, a query issues exactly
one bulk write attempt and at most one bulk read attempt (exactly one when
the write succeeds), and a fire-and-forget send issues exactly one write
attempt and no read attempt at all; neither ever retries. -/
theorem C6_query_one_write_one_read_send_no_read (self : OwonAG051)
    (cmd : String) (b : Behavior) (s : St) :
    countWrites (self.query cmd b s).2.trace = countWrites s.trace + 1 ∧
    countReads (self.query cmd b s).2.trace ≤ countReads s.trace + 1 ∧
    (b.onWrite s.writes = .ok →
      countReads (self.query cmd b s).2.trace = countReads s.trace + 1) ∧
    countWrites (self.send cmd b s).2.trace = countWrites s.trace + 1 ∧
    countReads (self.send cmd b s).2.trace = countReads s.trace := by
  rcases hw : b.onWrite s.writes with _ | _
  · rcases hr : b.onRead s.reads with data | _ | _ <;>
      simp [countWrites, countReads, OwonAG051.query, OwonAG051.send, M.bind,
            M.pure, devWrite, devRead, catchTimeout, pySleep, logEvent, hw, hr,
            List.countP_append, Event.isWriteAttempt, Event.isReadAttempt]
  · simp [countWrites, countReads, OwonAG051.query, OwonAG051.send, M.bind,
          M.pure, devWrite, devRead, catchTimeout, pySleep, logEvent, hw,
          List.countP_append, Event.isWriteAttempt, Event.isReadAttempt]

/-- C6 witness: concrete counts for a query that times out and a send. -/
theorem C6_witness :
    timeoutBehavior.onWrite St.initial.writes = .ok ∧
    countWrites (sampleDevice.query "*IDN?" timeoutBehavior St.initial).2.trace =
      countWrites St.initial.trace + 1 ∧
    countReads (sampleDevice.query "*IDN?" timeoutBehavior St.initial).2.trace =
      countReads St.initial.trace + 1 ∧
    countWrites (sampleDevice.send "*RST" timeoutBehavior St.initial).2.trace =
      countWrites St.initial.trace + 1 ∧
    countReads (sampleDevice.send "*RST" timeoutBehavior St.initial).2.trace =
      countReads St.initial.trace :=
  ⟨rfl,
   (C6_query_one_write_one_read_send_no_read sampleDevice "*IDN?" timeoutBehavior
      St.initial).1,
   (C6_query_one_write_one_read_send_no_read sampleDevice "*IDN?" timeoutBehavior
      St.initial).2.2.1 rfl,
   (C6_query_one_write_one_read_send_no_read sampleDevice "*RST" timeoutBehavior
      St.initial).2.2.2.1,
   (C6_query_one_write_one_read_send_no_read sampleDevice "*RST" timeoutBehavior
      St.initial).2.2.2.2⟩

/-- C7: for every position N in 1..4, when the N-th of the four sends of
`configure_waveform` fails with a transport fault, the commands of sends
1..N-1 were already transmitted, the N-th payload was not transmitted, the
sends after N are never attempted (the trace ends at the failed write), and
the transport error propagates unchanged to the caller. -/
theorem C7_configure_waveform_no_rollback (self : OwonAG051)
    (shape freq ampl offset : String) (b : Behavior) (s : St) :
    (b.onWrite s.writes = .ioError →
      (self.configure_waveform shape freq ampl offset b s).1 = .error .ioError ∧
      (self.configure_waveform shape freq ampl offset b s).2.trace =
        s.trace ++
          [.writeAttempt OwonAG051.OUT_ENDPOINT
             (pyEncode (":FUNCtion " ++ shape) ++ [0x0D]) false]) ∧
    (b.onWrite s.writes = .ok → b.onWrite (s.writes + 1) = .ioError →
      (self.configure_waveform shape freq ampl offset b s).1 = .error .ioError ∧
      (self.configure_waveform shape freq ampl offset b s).2.trace =
        s.trace ++
          [.writeAttempt OwonAG051.OUT_ENDPOINT
             (pyEncode (":FUNCtion " ++ shape) ++ [0x0D]) true,
           .sleep sendSettleDelayMs,
           .writeAttempt OwonAG051.OUT_ENDPOINT
             (pyEncode (":FUNCtion:FREQuency " ++ freq) ++ [0x0D]) false]) ∧
    (b.onWrite s.writes = .ok → b.onWrite (s.writes + 1) = .ok →
     b.onWrite (s.writes + 2) = .ioError →
      (self.configure_waveform shape freq ampl offset b s).1 = .error .ioError ∧
      (self.configure_waveform shape freq ampl offset b s).2.trace =
        s.trace ++
          [.writeAttempt OwonAG051.OUT_ENDPOINT
             (pyEncode (":FUNCtion " ++ shape) ++ [0x0D]) true,
           .sleep sendSettleDelayMs,
           .writeAttempt OwonAG051.OUT_ENDPOINT
             (pyEncode (":FUNCtion:FREQuency " ++ freq) ++ [0x0D]) true,
           .sleep sendSettleDelayMs,
           .writeAttempt OwonAG051.OUT_ENDPOINT
             (pyEncode (":FUNCtion:AMPLitude " ++ ampl) ++ [0x0D]) false]) ∧
    (b.onWrite s.writes = .ok → b.onWrite (s.writes + 1) = .ok →
     b.onWrite (s.writes + 2) = .ok → b.onWrite (s.writes + 3) = .ioError →
      (self.configure_waveform shape freq ampl offset b s).1 = .error .ioError ∧
      (self.configure_waveform shape freq ampl offset b s).2.trace =
        s.trace ++
          [.writeAttempt OwonAG051.OUT_ENDPOINT
             (pyEncode (":FUNCtion " ++ shape) ++ [0x0D]) true,
           .sleep sendSettleDelayMs,
           .writeAttempt OwonAG051.OUT_ENDPOINT
             (pyEncode (":FUNCtion:FREQuency " ++ freq) ++ [0x0D]) true,
           .sleep sendSettleDelayMs,
           .writeAttempt OwonAG051.OUT_ENDPOINT
             (pyEncode (":FUNCtion:AMPLitude " ++ ampl) ++ [0x0D]) true,
           .sleep sendSettleDelayMs,
           .writeAttempt OwonAG051.OUT_ENDPOINT
             (pyEncode (":FUNCtion:OFFSet " ++ offset) ++ [0x0D]) false]) := by
  refine ⟨fun h0 => ?_, fun h0 h1 => ?_, fun h0 h1 h2 => ?_, fun h0 h1 h2 h3 => ?_⟩ <;>
    (constructor <;>
      simp [OwonAG051.configure_waveform, OwonAG051.set_function,
            OwonAG051.set_frequency, OwonAG051.set_amplitude, OwonAG051.set_offset,
            OwonAG051.send, M.bind, devWrite, pySleep, logEvent, pyEncode_cr, *])

/-- C7 witness: concrete configure calls whose first, second, third and
fourth write fail respectively; the fourth run also exhibits the full trace,
with the first three commands transmitted and the fourth not. -/
theorem C7_witness :
    (writeFaultBehavior 0).onWrite St.initial.writes = .ioError ∧
    (writeFaultBehavior 1).onWrite St.initial.writes = .ok ∧
    (writeFaultBehavior 1).onWrite (St.initial.writes + 1) = .ioError ∧
    (writeFaultBehavior 2).onWrite (St.initial.writes + 2) = .ioError ∧
    (writeFaultBehavior 3).onWrite (St.initial.writes + 3) = .ioError ∧
    (sampleDevice.configure_waveform "SINE" "1000.0" "2.0" "0.0"
       (writeFaultBehavior 0) St.initial).1 = .error .ioError ∧
    (sampleDevice.configure_waveform "SINE" "1000.0" "2.0" "0.0"
       (writeFaultBehavior 1) St.initial).1 = .error .ioError ∧
    (sampleDevice.configure_waveform "SINE" "1000.0" "2.0" "0.0"
       (writeFaultBehavior 2) St.initial).1 = .error .ioError ∧
    (sampleDevice.configure_waveform "SINE" "1000.0" "2.0" "0.0"
       (writeFaultBehavior 3) St.initial).1 = .error .ioError ∧
    (sampleDevice.configure_waveform "SINE" "1000.0" "2.0" "0.0"
       (writeFaultBehavior 3) St.initial).2.trace =
      St.initial.trace ++
        [.writeAttempt OwonAG051.OUT_ENDPOINT
           (pyEncode (":FUNCtion " ++ "SINE") ++ [0x0D]) true,
         .sleep sendSettleDelayMs,
         .writeAttempt OwonAG051.OUT_ENDPOINT
           (pyEncode (":FUNCtion:FREQuency " ++ "1000.0") ++ [0x0D]) true,
         .sleep sendSettleDelayMs,
         .writeAttempt OwonAG051.OUT_ENDPOINT
           (pyEncode (":FUNCtion:AMPLitude " ++ "2.0") ++ [0x0D]) true,
         .sleep sendSettleDelayMs,
         .writeAttempt OwonAG051.OUT_ENDPOINT
           (pyEncode (":FUNCtion:OFFSet " ++ "0.0") ++ [0x0D]) false] :=
  ⟨rfl, rfl, rfl, rfl, rfl,
   ((C7_configure_waveform_no_rollback sampleDevice "SINE" "1000.0" "2.0" "0.0"
       (writeFaultBehavior 0) St.initial).1 rfl).1,
   ((C7_configure_waveform_no_rollback sampleDevice "SINE" "1000.0" "2.0" "0.0"
       (writeFaultBehavior 1) St.initial).2.1 rfl rfl).1,
   ((C7_configure_waveform_no_rollback sampleDevice "SINE" "1000.0" "2.0" "0.0"
       (writeFaultBehavior 2) St.initial).2.2.1 rfl rfl rfl).1,
   ((C7_configure_waveform_no_rollback sampleDevice "SINE" "1000.0" "2.0" "0.0"
       (writeFaultBehavior 3) St.initial).2.2.2 rfl rfl rfl rfl).1,
   ((C7_configure_waveform_no_rollback sampleDevice "SINE" "1000.0" "2.0" "0.0"
       (writeFaultBehavior 3) St.initial).2.2.2 rfl rfl rfl rfl).2⟩

/-- C8: a successful reset sends the terminated `*RST` command and then emits
the delay effects 50 ms (from the ordinary send) followed by the 500 ms
settle delay before returning, and the reset settle delay is strictly longer
than the ordinary per-send delay. -/
theorem C8_reset_settle_delay (self : OwonAG051) (b : Behavior) (s : St)
    (hw : b.onWrite s.writes = .ok) :
    (self.reset b s).1 = .ok () ∧
    (self.reset b s).2.trace =
      s.trace ++ [.writeAttempt OwonAG051.OUT_ENDPOINT (pyEncode "*RST" ++ [0x0D]) true,
                  .sleep sendSettleDelayMs, .sleep resetSettleDelayMs] ∧
    sendSettleDelayMs < resetSettleDelayMs := by
  refine ⟨?_, ?_, by decide⟩ <;>
    (simp [OwonAG051.reset, OwonAG051.send, M.bind, devWrite, pySleep, logEvent,
           pyEncode_cr, hw]
     try decide)

/-- C8 witness: a concrete successful reset. -/
theorem C8_witness :
    timeoutBehavior.onWrite St.initial.writes = .ok ∧
    ((sampleDevice.reset timeoutBehavior St.initial).1 = .ok () ∧
     (sampleDevice.reset timeoutBehavior St.initial).2.trace =
       St.initial.trace ++
         [.writeAttempt OwonAG051.OUT_ENDPOINT (pyEncode "*RST" ++ [0x0D]) true,
          .sleep sendSettleDelayMs, .sleep resetSettleDelayMs] ∧
     sendSettleDelayMs < resetSettleDelayMs) :=
  ⟨rfl, C8_reset_settle_delay sampleDevice timeoutBehavior St.initial rfl⟩

/-- C9: every query reads with the fixed maximum length 4096 — the read
attempt it logs carries maxLen 4096 for every controller, whatever vendor id,
product id and timeout were chosen at construction — so a successful read
returns at most the first 4096 bytes of the device response, and a response
longer than 4096 bytes is not read in full by one query. -/
theorem C9_read_bounded_4096 (self : OwonAG051) (cmd : String)
    (data : List Byte) (b : Behavior) (s : St)
    (hw : b.onWrite s.writes = .ok) (hr : b.onRead s.reads = .ok data) :
    (self.query cmd b s).2.trace =
      s.trace ++ [.writeAttempt OwonAG051.OUT_ENDPOINT (pyEncode (cmd ++ "\r")) true,
                  .readAttempt OwonAG051.IN_ENDPOINT 4096 self.timeout] ∧
    (self.query cmd b s).1 = .ok (pyStrip (decodeUtf8Ignore (data.take 4096))) ∧
    (4096 < data.length → (data.take 4096).length < data.length) := by
  refine ⟨?_, ?_, fun h => by simp [List.length_take]; omega⟩ <;>
    simp [OwonAG051.query, M.bind, M.pure, devWrite, devRead, catchTimeout, hw, hr]

/-- C9 witness: a concrete query against a 5000-byte response. -/
theorem C9_witness :
    longBehavior.onWrite St.initial.writes = .ok ∧
    longBehavior.onRead St.initial.reads = .ok longData ∧
    4096 < longData.length ∧
    ((sampleDevice.query "*IDN?" longBehavior St.initial).2.trace =
       St.initial.trace ++
         [.writeAttempt OwonAG051.OUT_ENDPOINT (pyEncode ("*IDN?" ++ "\r")) true,
          .readAttempt OwonAG051.IN_ENDPOINT 4096 sampleDevice.timeout] ∧
     (sampleDevice.query "*IDN?" longBehavior St.initial).1 =
       .ok (pyStrip (decodeUtf8Ignore (longData.take 4096))) ∧
     (4096 < longData.length → (longData.take 4096).length < longData.length)) :=
  ⟨rfl, rfl, by norm_num [longData],
   C9_read_bounded_4096 sampleDevice "*IDN?" longData longBehavior St.initial rfl rfl⟩

/-- C10: a query performs its write before attempting the read, so even when
the read times out and the empty string is returned, the terminated command
was already transmitted: the write event precedes the read attempt in the
trace of the timed-out run. -/
theorem C10_write_precedes_read (self : OwonAG051) (cmd : String)
    (b : Behavior) (s : St)
    (hw : b.onWrite s.writes = .ok) (hr : b.onRead s.reads = .timeout) :
    (self.query cmd b s).1 = .ok "" ∧
    (self.query cmd b s).2.trace =
      s.trace ++ [.writeAttempt OwonAG051.OUT_ENDPOINT (pyEncode cmd ++ [0x0D]) true,
                  .readAttempt OwonAG051.IN_ENDPOINT 4096 self.timeout] := by
  constructor <;>
    simp [OwonAG051.query, M.bind, M.pure, devWrite, devRead, catchTimeout,
          pyEncode_cr, hw, hr]

/-- C10 witness: a concrete timed-out query whose command was transmitted. -/
theorem C10_witness :
    timeoutBehavior.onWrite St.initial.writes = .ok ∧
    timeoutBehavior.onRead St.initial.reads = .timeout ∧
    ((sampleDevice.query "*IDN?" timeoutBehavior St.initial).1 = .ok "" ∧
     (sampleDevice.query "*IDN?" timeoutBehavior St.initial).2.trace =
       St.initial.trace ++
         [.writeAttempt OwonAG051.OUT_ENDPOINT (pyEncode "*IDN?" ++ [0x0D]) true,
          .readAttempt OwonAG051.IN_ENDPOINT 4096 sampleDevice.timeout]) :=
  ⟨rfl, rfl, C10_write_precedes_read sampleDevice "*IDN?" timeoutBehavior St.initial rfl rfl⟩
